import Mathlib

/-
Verification of the occupancy simulator in `tsorb/OccupancyModel.py`.

The Python class `OccupancyModel` is embedded shallowly:
  * numpy matrices become `List (List ℚ)` (a list of rows);
  * the dictionaries held by the data-exchange collaborator become
    association lists `List (String × Mat)`;
  * Python `int` becomes `Int`; numpy indexing (including negative-index
    wrap-around) is modelled explicitly and raises `Err.indexError` out of
    range, dictionary access raises `Err.keyError` on a missing key;
  * the process-wide numpy random stream is modelled as an explicit
    stream `rand : Nat → ℚ` of uniform draws in [0, 1) together with a
    cursor `pos : Nat`; each call of the sampler consumes one draw;
  * fallible code returns `Except Err`.
-/

namespace Tsorb

/-- Errors that the embedded code can signal.  `keyError`, `indexError` and
`valueError` correspond to the Python exceptions of the same names raised by
dictionary lookup, (numpy) indexing, and the explicit `raise ValueError`
statements in `OccupancyModel`; `noneError` models the `TypeError` of
subscripting `None`; `samplerError` is the error the spec (§4.1, §7) requires
of the discrete sampler on a weight vector with non-positive total. -/
inductive Err where
  | keyError : Err
  | indexError : Err
  | noneError : Err
  | samplerError : Err
  | valueError : String → Err
deriving DecidableEq

/-- A numpy matrix, as a list of rows. -/
abbrev Mat := List (List ℚ)

/-- Numpy/Python sequence indexing with an `Int` index: a negative index is
taken from the end; out of range raises `IndexError`. -/
def npGet {α : Type} [Inhabited α] (l : List α) (i : Int) : Except Err α :=
  let j : Int := if i < 0 then i + l.length else i
  if 0 ≤ j ∧ j < (l.length : Int) then .ok (l.getD j.toNat default)
  else .error Err.indexError

/-- Column extraction `m[:, j]` from a 2-D numpy array. -/
def matCol (m : Mat) (j : Int) : Except Err (List ℚ) :=
  m.mapM (fun row => npGet row j)

/-- Python dictionary lookup on an association list; `KeyError` when absent. -/
def dictGet (d : List (String × Mat)) (k : String) : Except Err Mat :=
  match d with
  | [] => .error Err.keyError
  | (k', v) :: rest => if k' = k then .ok v else dictGet rest k

/-- Smallest index whose cumulative weight strictly exceeds `u`, scanning the
weights with the running sum `acc` of the weights already passed. -/
def cumFind (u : ℚ) : List ℚ → ℚ → Option Nat
  | [], _ => none
  | w :: ws, acc =>
      if u < acc + w then some 0
      else (cumFind u ws (acc + w)).map Nat.succ

/-- Modelled from the spec: the discrete probability distribution sampler
(class `DPD` in `tsorb/utils/DPD.py`, which is not part of this tree; only its
call sites in `OccupancyModel.run` are).  Per §4.1 of the spec: build the
cumulative sum of the weights, draw `u` uniformly from `[0, total)`, and
return the smallest index whose cumulative sum exceeds `u`; a non-positive
total is an error.  The uniform draw is supplied as `r ∈ [0, 1)` from the
process-wide stream, with `u = r * total`. -/
def sample (weights : List ℚ) (r : ℚ) : Except Err Nat :=
  let total := weights.sum
  if total ≤ 0 then .error Err.samplerError
  else
    match cumFind (r * total) weights 0 with
    | some i => .ok i
    | none => .error Err.samplerError

/-- The four dictionaries exposed by the data-exchange collaborator that
`OccupancyModel.__init__` reads (`get_four_state_start_state`,
`get_four_state_trans_data`, `get_occ_start_states_data`,
`get_occ_act_trans_data`). -/
structure DataExchange where
  four_state_start_state : List (String × Mat)
  four_state_trans_data : List (String × Mat)
  occ_start_states_data : List (String × Mat)
  occ_act_trans_data : List (String × Mat)

/-- The state of an `OccupancyModel` instance: its constructor arguments, the
two table references resolved at construction, the sticky `_has_run` flag, the
last produced trajectory `_states` (`none` until the first run), and the two
result arrays. -/
structure OccupancyModel where
  residents : Int
  four_states : Bool
  start_state : List (String × Mat)
  occ_act_trans_data : List (String × Mat)
  has_run : Bool
  states : Option (List Int)
  occ_activity : List Int
  occ_no_activity : List Int

/-- `OccupancyModel.__init__`: stores the configuration, resolves the table
references according to `four_states`, and initialises the result arrays to
`np.zeros(144, int)`.  Note that it performs no validation of `residents`. -/
def OccupancyModel.init (data_ex : DataExchange) (residents : Int)
    (four_states : Bool) : OccupancyModel :=
  { residents := residents
    four_states := four_states
    start_state :=
      if four_states then data_ex.four_state_start_state
      else data_ex.occ_start_states_data
    occ_act_trans_data :=
      if four_states then data_ex.four_state_trans_data
      else data_ex.occ_act_trans_data
    has_run := false
    states := none
    occ_activity := List.replicate 144 0
    occ_no_activity := List.replicate 144 0 }

/-- `num_row_jump`: `int((residents + 1) ** 2)` for the four-state variant,
`7` for the seven-state variant. -/
def numRowJump (m : OccupancyModel) : Int :=
  if m.four_states then (m.residents + 1) ^ 2 else 7

/-- The start-state draw of `run` (performed on every invocation): one sample
from the start distribution; in the four-state branch the drawn index is
remapped by `int((residents + 1) * math.floor(start_ix / 7) +
int(math.fmod(start_ix, 7)))`, in the seven-state branch it is used
directly. -/
def initialDraw (m : OccupancyModel) (startVec : List ℚ) (r : ℚ) :
    Except Err Int :=
  if m.four_states then
    match sample startVec r with
    | .error e => .error e
    | .ok s => .ok ((m.residents + 1) * Int.ofNat (s / 7) + Int.ofNat (s % 7))
  else
    match sample startVec r with
    | .error e => .error e
    | .ok s => .ok (Int.ofNat s)

/-- The override `if self._has_run: state = self._states[-1]`: when a prior
run exists its last recorded state replaces the freshly drawn one. -/
def initialState (m : OccupancyModel) (drawn : Int) : Except Err Int :=
  if m.has_run then
    match m.states with
    | some prev => npGet prev (-1)
    | none => .error Err.noneError
  else .ok drawn

/-- One loop iteration of `run`: select the transition row
`act_transition[num_row_jump * interval + state, 2:]` and draw the next state
from it. -/
def stepDraw (trans : Mat) (jump : Int) (r : ℚ) (interval : Nat)
    (state : Int) : Except Err Nat :=
  match npGet trans (jump * (interval : Int) + state) with
  | .error e => .error e
  | .ok row => sample (row.drop 2) r

/-- The `for interval in range(0, 144)` loop of `run`, advancing `count` more
intervals starting at interval number `interval` with current state `state`
and random cursor `pos`; returns the recorded states (in interval order) and
the final cursor. -/
def runChain (trans : Mat) (jump : Int) (rand : Nat → ℚ) :
    Nat → Int → Nat → Nat → Except Err (List Int × Nat)
  | pos, _, _, 0 => .ok ([], pos)
  | pos, state, interval, Nat.succ k =>
      match stepDraw trans jump (rand pos) interval state with
      | .error e => .error e
      | .ok s =>
          match runChain trans jump rand (pos + 1) (Int.ofNat s)
              (interval + 1) k with
          | .error e => .error e
          | .ok pr => .ok (Int.ofNat s :: pr.1, pr.2)

/-- The result-saving tail of `run`: for the four-state variant
`home = np.floor(states / (residents + 1)).astype(int)` (floor division,
`Int.fdiv`), `active = np.fmod(states, residents + 1)` (C `fmod`,
`Int.tmod`), `occ_activity = np.minimum(home, active)`,
`occ_no_activity = np.maximum(home - active, 0)`; for the seven-state variant
`occ_activity = states` unchanged.  Both branches then store the trajectory
and set `_has_run = True`. -/
def postprocess (m : OccupancyModel) (statesOut : List Int) : OccupancyModel :=
  if m.four_states then
    let home := statesOut.map (fun s => Int.fdiv s (m.residents + 1))
    let active := statesOut.map (fun s => Int.tmod s (m.residents + 1))
    { m with
      occ_activity := List.zipWith min home active
      occ_no_activity := List.zipWith (fun hm ac => max (hm - ac) 0) home active
      states := some statesOut
      has_run := true }
  else
    { m with
      occ_activity := statesOut
      states := some statesOut
      has_run := true }

/-- `OccupancyModel.run(day_of_week)`.  Stage order follows the source: look
up the start-state matrix for the day type, extract its column
`residents - 1`, look up the transition matrix under the key
`day_of_week + str(residents)`, draw (and possibly remap) a start state,
override it with the previous trajectory's last state when `_has_run`, run
the 144-interval loop, and save the decoded results.  The assignment
`states[0] = state` before the loop in the source has no effect on the saved
results: the loop body writes `states[interval]` for every
`interval ∈ range(0, 144)`, overwriting index 0 on its first iteration, so
the saved trajectory consists exactly of the 144 sampled states. -/
def OccupancyModel.run (m : OccupancyModel) (day_of_week : String)
    (rand : Nat → ℚ) (pos : Nat) : Except Err (OccupancyModel × Nat) :=
  match dictGet m.start_state day_of_week with
  | .error e => .error e
  | .ok sMat =>
    match matCol sMat (m.residents - 1) with
    | .error e => .error e
    | .ok startVec =>
      match dictGet m.occ_act_trans_data (day_of_week ++ toString m.residents) with
      | .error e => .error e
      | .ok act_transition =>
        match initialDraw m startVec (rand pos) with
        | .error e => .error e
        | .ok drawn =>
          match initialState m drawn with
          | .error e => .error e
          | .ok state0 =>
            match runChain act_transition (numRowJump m) rand (pos + 1)
                state0 0 144 with
            | .error e => .error e
            | .ok (statesOut, pos2) => .ok (postprocess m statesOut, pos2)

/-- Message of the `ValueError` raised by the accessors before `run`. -/
def msgRunFirst : String :=
  "Function \"run\" of OccupancyModel needs to be called first."

/-- Message of the `ValueError` raised by `get_occ_no_activity` on a
seven-state instance (the source concatenates the two literals without a
separating space). -/
def msgFourState : String :=
  "Just a four state occupancy model can returnthese states. Please set four_states parameter to True."

/-- Property `get_residents`. -/
def OccupancyModel.get_residents (m : OccupancyModel) : Int :=
  m.residents

/-- Property `get_occ_activity`: `ValueError` before the first run, otherwise
the stored activity array. -/
def OccupancyModel.get_occ_activity (m : OccupancyModel) :
    Except Err (List Int) :=
  if m.has_run = false then .error (Err.valueError msgRunFirst)
  else .ok m.occ_activity

/-- Property `get_occ_no_activity`: `ValueError` before the first run, then
`ValueError` on a non-four-state instance, otherwise the stored array. -/
def OccupancyModel.get_occ_no_activity (m : OccupancyModel) :
    Except Err (List Int) :=
  if m.has_run = false then .error (Err.valueError msgRunFirst)
  else if m.four_states = false then .error (Err.valueError msgFourState)
  else .ok m.occ_no_activity

/-! ### Concrete instances used by counterexamples and witnesses -/

/-- The all-zeros random stream: every uniform draw is `0`, so the sampler
deterministically returns the first index with positive cumulative weight. -/
def r0 : Nat → ℚ := fun _ => 0

/-- Transition row sending the chain to state 1 (columns 0 and 1 are the two
metadata columns that `run` slices off with `[2:]`). -/
def rowTo1 : List ℚ := [0, 0, 0, 1, 0, 0]

/-- Transition row sending the chain to state 0. -/
def rowTo0 : List ℚ := [0, 0, 1, 0, 0, 0]

/-- A stacked transition table for a four-state household with one resident
(`num_row_jump = 4`, rows `0 ≤ i < 576`): every row sends the chain to
state 1 except row 1 (interval 0, current state 1), which sends it to
state 0.  Under `r0`, a first run from start state 0 therefore records the
constant-1 trajectory, while a second run, continuing from state 1, records
state 0 at interval 0. -/
def transW : Mat := rowTo1 :: rowTo0 :: List.replicate 574 rowTo1

/-- Tables for a one-resident four-state household: the weekday start-state
matrix has a single column (for `residents = 1`) concentrated on raw class 0,
and the weekday transition table is `transW`. -/
def dexW : DataExchange :=
  { four_state_start_state := [("wd", [[1], [0], [0], [0], [0], [0], [0]])]
    four_state_trans_data := [("wd1", transW)]
    occ_start_states_data := []
    occ_act_trans_data := [] }

/-- A freshly constructed one-resident four-state simulator over `dexW`. -/
def mW : OccupancyModel := OccupancyModel.init dexW 1 true

/-- First run of `mW` (weekday, all-zeros stream, cursor 0). -/
def runW1 : Except Err (OccupancyModel × Nat) := mW.run "wd" r0 0

/-- An empty data exchange, used as the default of `getOk`. -/
def emptyDex : DataExchange := ⟨[], [], [], []⟩

/-- Extract the successful result of a run (default value on error; all uses
below are on runs that succeed). -/
def getOk (x : Except Err (OccupancyModel × Nat)) : OccupancyModel × Nat :=
  match x with
  | .ok v => v
  | .error _ => (OccupancyModel.init emptyDex 0 true, 0)

/-- Whether a run completed without raising. -/
def runOk (x : Except Err (OccupancyModel × Nat)) : Bool :=
  match x with
  | .ok _ => true
  | .error _ => false

/-- The simulator state after the first run of `mW`. -/
def mW1 : OccupancyModel := (getOk runW1).1

/-- Second run of `mW`, from the state left by the first one. -/
def runW2 : Except Err (OccupancyModel × Nat) := mW1.run "wd" r0 145

/-- Tables for a zero-resident four-state household: the weekday start-state
matrix is the 1×1 matrix `[[1]]` (its column `residents - 1 = -1` resolves to
column 0 by numpy negative indexing) and the weekday transition table
(`num_row_jump = 1`) keeps the chain in state 0 for all 144 intervals. -/
def dexS : DataExchange :=
  { four_state_start_state := [("wd", [[1]])]
    four_state_trans_data := [("wd0", List.replicate 144 [0, 0, 1])]
    occ_start_states_data := []
    occ_act_trans_data := [] }

/-- A freshly constructed zero-resident four-state simulator over `dexS`:
the constructor accepts `residents = 0` without complaint. -/
def mS : OccupancyModel := OccupancyModel.init dexS 0 true

/-- Run of the zero-resident simulator: it succeeds end to end. -/
def runS : Except Err (OccupancyModel × Nat) := mS.run "wd" r0 0

/-- A simulator over the `dexS` tables that has already run: `_has_run` is
set and a previous all-zeros trajectory is stored. -/
def mS1 : OccupancyModel :=
  { residents := 0
    four_states := true
    start_state := dexS.four_state_start_state
    occ_act_trans_data := dexS.four_state_trans_data
    has_run := true
    states := some (List.replicate 144 0)
    occ_activity := List.replicate 144 0
    occ_no_activity := List.replicate 144 0 }

/-- Run of the already-run simulator `mS1`. -/
def runS1 : Except Err (OccupancyModel × Nat) := mS1.run "wd" r0 7

/-- A data exchange agreeing with `dexW` on the four-state tables but
differing on the (unused) seven-state ones. -/
def dexW' : DataExchange :=
  { four_state_start_state := dexW.four_state_start_state
    four_state_trans_data := dexW.four_state_trans_data
    occ_start_states_data := [("we", [[1, 2], [3, 4]])]
    occ_act_trans_data := [("we7", [[5]])] }

/-- A seven-state simulator state that has already run, used to exercise the
accessor preconditions. -/
def mSeven : OccupancyModel :=
  { residents := 2
    four_states := false
    start_state := []
    occ_act_trans_data := []
    has_run := true
    states := some (List.replicate 144 3)
    occ_activity := List.replicate 144 3
    occ_no_activity := List.replicate 144 0 }

/-! ### Supporting lemmas -/

/-- Characterization of a successful loop: it records exactly `count` states,
advances the random cursor by one per interval, and every recorded state is
the one drawn by `stepDraw` from the row selected by the state of the
previous interval (the entry state for the first interval). -/
theorem runChain_ok (trans : Mat) (jump : Int) (rand : Nat → ℚ) :
    ∀ (count pos : Nat) (state : Int) (interval : Nat) (out : List Int) (p2 : Nat),
      runChain trans jump rand pos state interval count = .ok (out, p2) →
      out.length = count ∧ p2 = pos + count ∧
      ∀ k, k < count →
        (stepDraw trans jump (rand (pos + k)) (interval + k)
            (if k = 0 then state else out.getD (k - 1) 0)).map Int.ofNat
          = .ok (out.getD k 0) := by
  intro count
  induction count with
  | zero =>
    intro pos state interval out p2 h
    simp only [runChain] at h
    cases h
    exact ⟨rfl, rfl, fun k hk => absurd hk (by omega)⟩
  | succ n ih =>
    intro pos state interval out p2 h
    simp only [runChain] at h
    split at h
    · cases h
    next s hstep =>
      split at h
      · cases h
      next pr hrec =>
        cases h
        obtain ⟨hlen, hq, hrecur⟩ := ih (pos + 1) (Int.ofNat s) (interval + 1) pr.1 pr.2 hrec
        refine ⟨by simp [hlen], by omega, ?_⟩
        intro k hk
        cases k with
        | zero =>
          simp [hstep, Except.map]
        | succ j =>
          have hj : j < n := by omega
          have h2 := hrecur j hj
          have e1 : pos + (j + 1) = pos + 1 + j := by omega
          have e2 : interval + (j + 1) = interval + 1 + j := by omega
          rw [e1, e2]
          simp only [Nat.succ_ne_zero, if_false, Nat.succ_sub_one, List.getD_cons_succ]
          cases j with
          | zero => simpa using h2
          | succ i => simpa using h2

/-- Characterization of a successful `run`: all six stages succeeded, in the
source's order, and the returned instance is the postprocessing of the loop's
output. -/
theorem run_ok_spec (m : OccupancyModel) (day : String) (rand : Nat → ℚ)
    (pos : Nat) (m' : OccupancyModel) (pos' : Nat)
    (h : m.run day rand pos = .ok (m', pos')) :
    ∃ sMat startVec trans drawn state0 out,
      dictGet m.start_state day = .ok sMat ∧
      matCol sMat (m.residents - 1) = .ok startVec ∧
      dictGet m.occ_act_trans_data (day ++ toString m.residents) = .ok trans ∧
      initialDraw m startVec (rand pos) = .ok drawn ∧
      initialState m drawn = .ok state0 ∧
      runChain trans (numRowJump m) rand (pos + 1) state0 0 144 = .ok (out, pos') ∧
      m' = postprocess m out := by
  unfold OccupancyModel.run at h
  split at h
  · cases h
  next sMat hA =>
  split at h
  · cases h
  next startVec hB =>
  split at h
  · cases h
  next trans hC =>
  split at h
  · cases h
  next drawn hD =>
  split at h
  · cases h
  next state0 hE =>
  split at h
  · cases h
  next statesOut pos2 hF =>
  cases h
  exact ⟨sMat, startVec, trans, drawn, state0, statesOut, hA, hB, hC, hD, hE, hF, rfl⟩

/-- Inversion of the start-state draw: a successful `initialDraw` is a
successful sample, remapped in the four-state variant and taken as-is in the
seven-state variant. -/
theorem initialDraw_ok (m : OccupancyModel) (v : List ℚ) (r : ℚ) (d : Int)
    (h : initialDraw m v r = .ok d) :
    ∃ s, sample v r = .ok s ∧
      d = if m.four_states
          then (m.residents + 1) * Int.ofNat (s / 7) + Int.ofNat (s % 7)
          else Int.ofNat s := by
  unfold initialDraw at h
  cases hf : m.four_states with
  | false =>
    rw [hf] at h
    simp only [Bool.false_eq_true, if_false] at h
    split at h
    · cases h
    next s hs =>
      cases h
      exact ⟨s, hs, by simp⟩
  | true =>
    rw [hf] at h
    simp only [if_true] at h
    split at h
    · cases h
    next s hs =>
      cases h
      exact ⟨s, hs, by simp⟩

/-- Inversion of the initial-state override on an instance that has already
run: the chain entry state is `self._states[-1]`. -/
theorem initialState_run (m : OccupancyModel) (drawn state0 : Int)
    (hr : m.has_run = true) (h : initialState m drawn = .ok state0) :
    ∃ prev, m.states = some prev ∧ npGet prev (-1) = .ok state0 := by
  unfold initialState at h
  rw [hr] at h
  simp only [if_true] at h
  cases hs : m.states with
  | none => rw [hs] at h; cases h
  | some prev => rw [hs] at h; exact ⟨prev, rfl, h⟩

/-- On a first run the chain entry state is the (possibly remapped) drawn
start state. -/
theorem initialState_first (m : OccupancyModel) (drawn state0 : Int)
    (hr : m.has_run = false) (h : initialState m drawn = .ok state0) :
    state0 = drawn := by
  unfold initialState at h
  rw [hr] at h
  simp only [Bool.false_eq_true, if_false] at h
  cases h
  rfl

/-- `run` stores the loop output as the instance's trajectory in both
variants. -/
theorem postprocess_states (m : OccupancyModel) (out : List Int) :
    (postprocess m out).states = some out := by
  unfold postprocess
  split <;> rfl

/-- The decoded series stored by the four-state branch. -/
theorem postprocess_occ_four (m : OccupancyModel) (out : List Int)
    (hF : m.four_states = true) :
    (postprocess m out).occ_activity =
      List.zipWith min (out.map fun s => Int.fdiv s (m.residents + 1))
        (out.map fun s => Int.tmod s (m.residents + 1)) ∧
    (postprocess m out).occ_no_activity =
      List.zipWith (fun hm ac => max (hm - ac) 0)
        (out.map fun s => Int.fdiv s (m.residents + 1))
        (out.map fun s => Int.tmod s (m.residents + 1)) := by
  unfold postprocess
  rw [hF]
  exact ⟨rfl, rfl⟩

/-- The seven-state branch stores the trajectory unchanged as the activity
series. -/
theorem postprocess_occ_seven (m : OccupancyModel) (out : List Int)
    (hF : m.four_states = false) :
    (postprocess m out).occ_activity = out := by
  unfold postprocess
  rw [hF]
  rfl

/-- Elementwise reading of a zipWith of two maps over the same list. -/
theorem getD_zipWith_map (f g : Int → Int) (op : Int → Int → Int) :
    ∀ (l : List Int) (t : Nat), t < l.length →
      (List.zipWith op (l.map f) (l.map g)).getD t 0
        = op (f (l.getD t 0)) (g (l.getD t 0)) := by
  intro l
  induction l with
  | nil => intro t ht; simp at ht
  | cons a l ih =>
    intro t ht
    cases t with
    | zero => rfl
    | succ t => exact ih t (by simpa using ht)

/-- The clipping identity behind the decoded series: the two stored counts
always add up to the home count. -/
theorem occ_min_add_max (hm ac : Int) : min hm ac + max (hm - ac) 0 = hm := by
  simp only [min_def, max_def]
  split <;> split <;> omega

/-- Bounds on the decoded home count for an in-range raw state. -/
theorem decode_home_bounds (r s : Int) (hr : 1 ≤ r) (h0 : 0 ≤ s)
    (hs : s < (r + 1) ^ 2) :
    0 ≤ Int.fdiv s (r + 1) ∧ Int.fdiv s (r + 1) ≤ r := by
  have hb : (0 : Int) ≤ r + 1 := by omega
  have hb' : (0 : Int) < r + 1 := by omega
  rw [Int.fdiv_eq_ediv _ hb]
  refine ⟨Int.ediv_nonneg h0 hb, ?_⟩
  have : s / (r + 1) < r + 1 := by
    rw [Int.ediv_lt_iff_lt_mul hb']
    calc s < (r + 1) ^ 2 := hs
    _ = (r + 1) * (r + 1) := by ring
  omega

/-- Bounds on the decoded active count for a non-negative raw state. -/
theorem decode_active_bounds (r s : Int) (hr : 1 ≤ r) (h0 : 0 ≤ s) :
    0 ≤ Int.tmod s (r + 1) ∧ Int.tmod s (r + 1) ≤ r := by
  have hb : (0 : Int) ≤ r + 1 := by omega
  have hb' : (0 : Int) < r + 1 := by omega
  rw [Int.tmod_eq_emod h0 hb]
  refine ⟨Int.emod_nonneg s (by omega), ?_⟩
  have := Int.emod_lt_of_pos s hb'
  omega

/-! ### Claim theorems -/

/-- C3: on the first invocation of `run` (no prior run), the raw index `s`
drawn from the start-state distribution enters the chain as
`(residentCount + 1) * floor(s / 7) + (s mod 7)` in the FourState variant,
and directly (no remapping) in the SevenState variant: the 144-interval loop
is started at exactly that initial state. -/
theorem run_first_start_state_remap (m : OccupancyModel) (day : String)
    (rand : Nat → ℚ) (pos : Nat) (m' : OccupancyModel) (pos' : Nat)
    (h : m.run day rand pos = .ok (m', pos')) (hR : m.has_run = false) :
    ∃ sMat startVec trans s out,
      dictGet m.start_state day = .ok sMat ∧
      matCol sMat (m.residents - 1) = .ok startVec ∧
      dictGet m.occ_act_trans_data (day ++ toString m.residents) = .ok trans ∧
      sample startVec (rand pos) = .ok s ∧
      runChain trans (if m.four_states then (m.residents + 1) ^ 2 else 7)
        rand (pos + 1)
        (if m.four_states
         then (m.residents + 1) * Int.ofNat (s / 7) + Int.ofNat (s % 7)
         else Int.ofNat s) 0 144 = .ok (out, pos') ∧
      m' = postprocess m out := by
  obtain ⟨sMat, startVec, trans, drawn, state0, out, hA, hB, hC, hD, hE, hF, hG⟩ :=
    run_ok_spec m day rand pos m' pos' h
  obtain ⟨s, hs, hd⟩ := initialDraw_ok m startVec (rand pos) drawn hD
  have h0 : state0 = drawn := initialState_first m drawn state0 hR hE
  refine ⟨sMat, startVec, trans, s, out, hA, hB, hC, hs, ?_, hG⟩
  rw [← hd, ← h0]
  simpa [numRowJump] using hF

/-- C4: every `run` advances the chain for exactly 144 intervals; at interval
`k` the transition row used is the one at position
`numRowJump * k + currentState` of the stacked table (with
`numRowJump = (residentCount + 1)^2` for FourState and `7` for SevenState,
and `currentState` the state recorded at the previous interval, or the
initial state at interval 0), and the state drawn from that row is recorded
as `trajectory[k]`. -/
theorem run_transition_row_selection (m : OccupancyModel) (day : String)
    (rand : Nat → ℚ) (pos : Nat) (m' : OccupancyModel) (pos' : Nat)
    (h : m.run day rand pos = .ok (m', pos')) :
    ∃ trans state0 out,
      dictGet m.occ_act_trans_data (day ++ toString m.residents) = .ok trans ∧
      m'.states = some out ∧ out.length = 144 ∧
      ∀ k, k < 144 →
        (stepDraw trans (if m.four_states then (m.residents + 1) ^ 2 else 7)
            (rand (pos + 1 + k)) k
            (if k = 0 then state0 else out.getD (k - 1) 0)).map Int.ofNat
          = .ok (out.getD k 0) := by
  obtain ⟨sMat, startVec, trans, drawn, state0, out, hA, hB, hC, hD, hE, hF, hG⟩ :=
    run_ok_spec m day rand pos m' pos' h
  obtain ⟨hlen, hpos, hrec⟩ :=
    runChain_ok trans (numRowJump m) rand 144 (pos + 1) state0 0 out pos' hF
  refine ⟨trans, state0, out, hC, by rw [hG]; exact postprocess_states m out,
    hlen, ?_⟩
  intro k hk
  have := hrec k hk
  simpa [numRowJump] using this

/-- C10: every successful invocation of `run` — including every invocation
after the first — consumes exactly 145 draws from the shared random source:
the start-state draw at cursor `pos` succeeds unconditionally (even though
its value is discarded when a prior trajectory exists), and the final cursor
is `pos + 145`. -/
theorem run_consumes_145_draws (m : OccupancyModel) (day : String)
    (rand : Nat → ℚ) (pos : Nat) (m' : OccupancyModel) (pos' : Nat)
    (h : m.run day rand pos = .ok (m', pos')) :
    pos' = pos + 145 ∧
    ∃ sMat startVec s,
      dictGet m.start_state day = .ok sMat ∧
      matCol sMat (m.residents - 1) = .ok startVec ∧
      sample startVec (rand pos) = .ok s := by
  obtain ⟨sMat, startVec, trans, drawn, state0, out, hA, hB, hC, hD, hE, hF, hG⟩ :=
    run_ok_spec m day rand pos m' pos' h
  obtain ⟨hlen, hpos, hrec⟩ :=
    runChain_ok trans (numRowJump m) rand 144 (pos + 1) state0 0 out pos' hF
  obtain ⟨s, hs, hd⟩ := initialDraw_ok m startVec (rand pos) drawn hD
  exact ⟨by omega, sMat, startVec, s, hA, hB, hs⟩

/-- C1 (amended): on a second invocation of `run`, the previous trajectory's
last state `prev[-1]` is used as the current state for interval 0 — it
selects the interval-0 transition row — but `trajectory2[0]` records the
state freshly drawn from that row, not `prev[-1]` itself. -/
theorem run_second_first_state_drawn_from_prev_last (m : OccupancyModel)
    (day : String) (rand : Nat → ℚ) (pos : Nat) (m' : OccupancyModel)
    (pos' : Nat) (prev : List Int)
    (h : m.run day rand pos = .ok (m', pos'))
    (hr : m.has_run = true) (hs : m.states = some prev) :
    ∃ trans last out,
      dictGet m.occ_act_trans_data (day ++ toString m.residents) = .ok trans ∧
      npGet prev (-1) = .ok last ∧
      m'.states = some out ∧ out.length = 144 ∧
      (stepDraw trans (numRowJump m) (rand (pos + 1)) 0 last).map Int.ofNat
        = .ok (out.getD 0 0) := by
  obtain ⟨sMat, startVec, trans, drawn, state0, out, hA, hB, hC, hD, hE, hF, hG⟩ :=
    run_ok_spec m day rand pos m' pos' h
  obtain ⟨prev', hp', hlast⟩ := initialState_run m drawn state0 hr hE
  rw [hs] at hp'
  cases hp'
  obtain ⟨hlen, hpos, hrec⟩ :=
    runChain_ok trans (numRowJump m) rand 144 (pos + 1) state0 0 out pos' hF
  have h0 := hrec 0 (by omega)
  refine ⟨trans, state0, out, hC, hlast,
    by rw [hG]; exact postprocess_states m out, hlen, ?_⟩
  simpa using h0

/-- C5: after a FourState `run`, every trajectory entry is decoded as
`homeCount = floor(rawState / (residentCount + 1))` and
`activeCount = rawState mod (residentCount + 1)` (numpy `fmod`), with
`occActivity[t] = min(homeCount, activeCount)` and
`occNoActivity[t] = max(homeCount - activeCount, 0)`; after a SevenState
`run`, `occActivity` equals the trajectory unchanged. -/
theorem run_decode_series (m : OccupancyModel) (day : String)
    (rand : Nat → ℚ) (pos : Nat) (m' : OccupancyModel) (pos' : Nat)
    (h : m.run day rand pos = .ok (m', pos')) :
    ∃ out, m'.states = some out ∧ out.length = 144 ∧
      (m.four_states = true →
        ∀ t, t < 144 →
          m'.occ_activity.getD t 0
            = min (Int.fdiv (out.getD t 0) (m.residents + 1))
                  (Int.tmod (out.getD t 0) (m.residents + 1)) ∧
          m'.occ_no_activity.getD t 0
            = max (Int.fdiv (out.getD t 0) (m.residents + 1)
                   - Int.tmod (out.getD t 0) (m.residents + 1)) 0) ∧
      (m.four_states = false → m'.occ_activity = out) := by
  obtain ⟨sMat, startVec, trans, drawn, state0, out, hA, hB, hC, hD, hE, hF, hG⟩ :=
    run_ok_spec m day rand pos m' pos' h
  obtain ⟨hlen, hpos, hrec⟩ :=
    runChain_ok trans (numRowJump m) rand 144 (pos + 1) state0 0 out pos' hF
  refine ⟨out, by rw [hG]; exact postprocess_states m out, hlen, ?_, ?_⟩
  · intro hFour t ht
    obtain ⟨hact, hnoact⟩ := postprocess_occ_four m out hFour
    rw [hG, hact, hnoact]
    constructor
    · exact getD_zipWith_map _ _ min out t (by omega)
    · exact getD_zipWith_map _ _ (fun hm ac => max (hm - ac) 0) out t (by omega)
  · intro hSeven
    rw [hG]
    exact postprocess_occ_seven m out hSeven

/-- C6: for a FourState run (of a positively-configured household, per §3 of
the spec) whose 144 raw chain states all lie in
`[0, (residentCount + 1)^2)`, every interval satisfies
`occActivity[t] ≤ residentCount`, `occNoActivity[t] ≤ residentCount`, and
`occActivity[t] + occNoActivity[t] ≤ residentCount`. -/
theorem run_decode_bounds (m : OccupancyModel) (day : String)
    (rand : Nat → ℚ) (pos : Nat) (m' : OccupancyModel) (pos' : Nat)
    (out : List Int)
    (h : m.run day rand pos = .ok (m', pos'))
    (hF : m.four_states = true) (hres : 1 ≤ m.residents)
    (hout : m'.states = some out)
    (hrange : ∀ s ∈ out, 0 ≤ s ∧ s < (m.residents + 1) ^ 2) :
    ∀ t, t < 144 →
      m'.occ_activity.getD t 0 ≤ m.residents ∧
      m'.occ_no_activity.getD t 0 ≤ m.residents ∧
      m'.occ_activity.getD t 0 + m'.occ_no_activity.getD t 0 ≤ m.residents := by
  obtain ⟨sMat, startVec, trans, drawn, state0, out', hA, hB, hC, hD, hE, hG2, hG⟩ :=
    run_ok_spec m day rand pos m' pos' h
  obtain ⟨hlen, hpos, hrec⟩ :=
    runChain_ok trans (numRowJump m) rand 144 (pos + 1) state0 0 out' pos' hG2
  have hsome : some out' = some out := by
    rw [← hout, hG]; exact (postprocess_states m out').symm
  cases hsome
  intro t ht
  obtain ⟨hact, hnoact⟩ := postprocess_occ_four m out hF
  rw [hG, hact, hnoact,
    getD_zipWith_map _ _ min out t (by omega),
    getD_zipWith_map _ _ (fun hm ac => max (hm - ac) 0) out t (by omega)]
  have hmem : out.getD t 0 ∈ out := by
    rw [List.getD_eq_getElem out 0 (by omega)]
    exact List.getElem_mem _
  obtain ⟨h0, hlt⟩ := hrange _ hmem
  obtain ⟨hh0, hhr⟩ := decode_home_bounds m.residents (out.getD t 0) hres h0 hlt
  obtain ⟨ha0, har⟩ := decode_active_bounds m.residents (out.getD t 0) hres h0
  simp only [min_def, max_def]
  split <;> split <;> omega

/-- C9 (implicit): after a FourState `run`, the two stored series satisfy the
exact identity `occActivity[t] + occNoActivity[t] =
floor(trajectory[t] / (residentCount + 1))` (the decoded home count) at every
interval, because `min(h, a) + max(h - a, 0) = h`. -/
theorem occ_sum_eq_home_count (m : OccupancyModel) (day : String)
    (rand : Nat → ℚ) (pos : Nat) (m' : OccupancyModel) (pos' : Nat)
    (out : List Int)
    (h : m.run day rand pos = .ok (m', pos'))
    (hF : m.four_states = true) (hout : m'.states = some out) :
    ∀ t, t < 144 →
      m'.occ_activity.getD t 0 + m'.occ_no_activity.getD t 0
        = Int.fdiv (out.getD t 0) (m.residents + 1) := by
  obtain ⟨sMat, startVec, trans, drawn, state0, out', hA, hB, hC, hD, hE, hG2, hG⟩ :=
    run_ok_spec m day rand pos m' pos' h
  obtain ⟨hlen, hpos, hrec⟩ :=
    runChain_ok trans (numRowJump m) rand 144 (pos + 1) state0 0 out' pos' hG2
  have hsome : some out' = some out := by
    rw [← hout, hG]; exact (postprocess_states m out').symm
  cases hsome
  intro t ht
  obtain ⟨hact, hnoact⟩ := postprocess_occ_four m out hF
  rw [hG, hact, hnoact,
    getD_zipWith_map _ _ min out t (by omega),
    getD_zipWith_map _ _ (fun hm ac => max (hm - ac) 0) out t (by omega)]
  exact occ_min_add_max _ _

/-- C7: for a fixed seed, two separate simulator instances with identical
configuration (resident count, variant, and the tables the variant resolves)
and identical day type produce identical results on their first `run`: the
process-wide random source is modelled as the explicit stream `rand`, which a
fixed seed determines, and both fresh instances read it from cursor 0. -/
theorem run_deterministic (dexA dexB : DataExchange) (residents : Int)
    (fs : Bool) (day : String) (rand : Nat → ℚ)
    (hS : (if fs then dexA.four_state_start_state else dexA.occ_start_states_data)
        = (if fs then dexB.four_state_start_state else dexB.occ_start_states_data))
    (hT : (if fs then dexA.four_state_trans_data else dexA.occ_act_trans_data)
        = (if fs then dexB.four_state_trans_data else dexB.occ_act_trans_data)) :
    (OccupancyModel.init dexA residents fs).run day rand 0
      = (OccupancyModel.init dexB residents fs).run day rand 0 := by
  have heq : OccupancyModel.init dexA residents fs
      = OccupancyModel.init dexB residents fs := by
    unfold OccupancyModel.init
    rw [hS, hT]
  rw [heq]

/-- C8: both result accessors raise the state `ValueError` before any `run`
call; `get_occ_no_activity` on a SevenState-configured instance raises the
configuration-mismatch `ValueError` even after `run`; `get_residents` has no
precondition and always returns the configured resident count. -/
theorem accessor_preconditions (m1 m2 : OccupancyModel)
    (h1 : m1.has_run = false) (h2 : m2.has_run = true)
    (h3 : m2.four_states = false) :
    m1.get_occ_activity = .error (Err.valueError msgRunFirst) ∧
    m1.get_occ_no_activity = .error (Err.valueError msgRunFirst) ∧
    m2.get_occ_no_activity = .error (Err.valueError msgFourState) ∧
    (∀ m : OccupancyModel, m.get_residents = m.residents) := by
  refine ⟨?_, ?_, ?_, fun m => rfl⟩ <;>
    simp [OccupancyModel.get_occ_activity, OccupancyModel.get_occ_no_activity,
      h1, h2, h3]

/-- C2 (amended): the constructor performs no validation of the resident
count — for every `residents` value, including values below 1, construction
succeeds and stores the value as given (no `InvalidInputError` or any other
error exists at construction time). -/
theorem init_no_resident_validation (dex : DataExchange) (residents : Int)
    (fs : Bool) :
    (OccupancyModel.init dex residents fs).residents = residents ∧
    (OccupancyModel.init dex residents fs).has_run = false ∧
    (OccupancyModel.init dex residents fs).four_states = fs :=
  ⟨rfl, rfl, rfl⟩

/-! ### Counterexamples and witnesses -/

set_option maxRecDepth 200000
set_option maxHeartbeats 2000000

/-- C1 (counterexample): on the concrete one-resident four-state instance
`mW` (tables `dexW`, all-zeros stream), both runs succeed, the first run's
trajectory ends in state 1, and the second run's trajectory begins with
state 0 — so `trajectory2[0] ≠ trajectory1[143]`, refuting the claim that a
second `run` records the previous trajectory's last state at index 0. -/
theorem continuity_counterexample :
    runOk runW1 = true ∧ runOk runW2 = true ∧
    (mW1.states.getD []).getD 143 0 = 1 ∧
    ((getOk runW2).1.states.getD []).getD 0 0 = 0 := by
  refine ⟨?_, ?_, ?_, ?_⟩ <;> with_unfolding_all rfl

/-- C2 (counterexample): the simulator `mS` is constructed with
`residents = 0 < 1` and neither its construction nor its `run` raises any
error at all — `run` completes, returning the advanced cursor 145 — so no
`InvalidInputError` is raised for a resident count below 1. -/
theorem resident_count_no_error_counterexample :
    mS.residents = 0 ∧ runOk runS = true ∧ (getOk runS).2 = 145 := by
  refine ⟨rfl, ?_, ?_⟩ <;> with_unfolding_all rfl

/-- C3 (witness): the first-run start-state theorem instantiated on the
concrete simulator `mS`. -/
theorem run_first_start_state_remap_witness :
    ∃ sMat startVec trans s out,
      dictGet mS.start_state "wd" = .ok sMat ∧
      matCol sMat (mS.residents - 1) = .ok startVec ∧
      dictGet mS.occ_act_trans_data ("wd" ++ toString mS.residents) = .ok trans ∧
      sample startVec (r0 0) = .ok s ∧
      runChain trans (if mS.four_states then (mS.residents + 1) ^ 2 else 7)
        r0 (0 + 1)
        (if mS.four_states
         then (mS.residents + 1) * Int.ofNat (s / 7) + Int.ofNat (s % 7)
         else Int.ofNat s) 0 144 = .ok (out, (getOk runS).2) ∧
      (getOk runS).1 = postprocess mS out :=
  run_first_start_state_remap mS "wd" r0 0 (getOk runS).1 (getOk runS).2
    (by with_unfolding_all rfl) rfl

/-- C4 (witness): the row-selection theorem instantiated on the concrete
simulator `mS`. -/
theorem run_transition_row_selection_witness :
    ∃ trans state0 out,
      dictGet mS.occ_act_trans_data ("wd" ++ toString mS.residents) = .ok trans ∧
      (getOk runS).1.states = some out ∧ out.length = 144 ∧
      ∀ k, k < 144 →
        (stepDraw trans (if mS.four_states then (mS.residents + 1) ^ 2 else 7)
            (r0 (0 + 1 + k)) k
            (if k = 0 then state0 else out.getD (k - 1) 0)).map Int.ofNat
          = .ok (out.getD k 0) :=
  run_transition_row_selection mS "wd" r0 0 (getOk runS).1 (getOk runS).2
    (by with_unfolding_all rfl)

/-- C10 (witness): the draw-count theorem instantiated on the concrete
already-run simulator `mS1` (entered at cursor 7, leaving at 152): the start
draw is consumed even though its value is discarded. -/
theorem run_consumes_145_draws_witness :
    (getOk runS1).2 = 7 + 145 ∧
    ∃ sMat startVec s,
      dictGet mS1.start_state "wd" = .ok sMat ∧
      matCol sMat (mS1.residents - 1) = .ok startVec ∧
      sample startVec (r0 7) = .ok s :=
  run_consumes_145_draws mS1 "wd" r0 7 (getOk runS1).1 (getOk runS1).2
    (by with_unfolding_all rfl)

/-- C1 (witness of the amended claim): instantiated on the concrete
already-run simulator `mS1` with its stored all-zeros previous trajectory. -/
theorem run_second_first_state_drawn_from_prev_last_witness :
    ∃ trans last out,
      dictGet mS1.occ_act_trans_data ("wd" ++ toString mS1.residents) = .ok trans ∧
      npGet (List.replicate 144 0) (-1) = .ok last ∧
      (getOk runS1).1.states = some out ∧ out.length = 144 ∧
      (stepDraw trans (numRowJump mS1) (r0 (7 + 1)) 0 last).map Int.ofNat
        = .ok (out.getD 0 0) :=
  run_second_first_state_drawn_from_prev_last mS1 "wd" r0 7 (getOk runS1).1
    (getOk runS1).2 (List.replicate 144 0) (by with_unfolding_all rfl) rfl rfl

/-- C5 (witness): the decoding theorem instantiated on the concrete
simulator `mS`. -/
theorem run_decode_series_witness :
    ∃ out, (getOk runS).1.states = some out ∧ out.length = 144 ∧
      (mS.four_states = true →
        ∀ t, t < 144 →
          (getOk runS).1.occ_activity.getD t 0
            = min (Int.fdiv (out.getD t 0) (mS.residents + 1))
                  (Int.tmod (out.getD t 0) (mS.residents + 1)) ∧
          (getOk runS).1.occ_no_activity.getD t 0
            = max (Int.fdiv (out.getD t 0) (mS.residents + 1)
                   - Int.tmod (out.getD t 0) (mS.residents + 1)) 0) ∧
      (mS.four_states = false → (getOk runS).1.occ_activity = out) :=
  run_decode_series mS "wd" r0 0 (getOk runS).1 (getOk runS).2
    (by with_unfolding_all rfl)

/-- C6 (witness): the decoding-bounds theorem instantiated on the concrete
one-resident simulator `mW`, whose first-run trajectory is the constant-1
list (in range for `numStates = 4`). -/
theorem run_decode_bounds_witness :
    mW1.occ_activity.getD 5 0 ≤ mW.residents ∧
    mW1.occ_no_activity.getD 5 0 ≤ mW.residents ∧
    mW1.occ_activity.getD 5 0 + mW1.occ_no_activity.getD 5 0 ≤ mW.residents :=
  run_decode_bounds mW "wd" r0 0 mW1 (getOk runW1).2 (List.replicate 144 1)
    (by with_unfolding_all rfl) rfl (by decide)
    (by with_unfolding_all rfl) (by decide) 5 (by decide)

/-- C9 (witness): the sum identity instantiated on the concrete simulator
`mS`, whose trajectory is the all-zeros list. -/
theorem occ_sum_eq_home_count_witness :
    (getOk runS).1.occ_activity.getD 5 0
      + (getOk runS).1.occ_no_activity.getD 5 0
      = Int.fdiv ((List.replicate 144 0).getD 5 0) (mS.residents + 1) :=
  occ_sum_eq_home_count mS "wd" r0 0 (getOk runS).1 (getOk runS).2
    (List.replicate 144 0) (by with_unfolding_all rfl) rfl
    (by with_unfolding_all rfl) 5 (by decide)

/-- C7 (witness): two instances built over `dexW` and `dexW'` — data
exchanges agreeing on the four-state tables but differing on the unused
seven-state ones — produce identical first runs on the same stream. -/
theorem run_deterministic_witness :
    (OccupancyModel.init dexW 1 true).run "wd" r0 0
      = (OccupancyModel.init dexW' 1 true).run "wd" r0 0 :=
  run_deterministic dexW dexW' 1 true "wd" r0 rfl rfl

/-- C8 (witness): the accessor theorem instantiated on the never-run
instance `mW` and the already-run seven-state instance `mSeven`. -/
theorem accessor_preconditions_witness :
    mW.get_occ_activity = .error (Err.valueError msgRunFirst) ∧
    mW.get_occ_no_activity = .error (Err.valueError msgRunFirst) ∧
    mSeven.get_occ_no_activity = .error (Err.valueError msgFourState) ∧
    (∀ m : OccupancyModel, m.get_residents = m.residents) :=
  accessor_preconditions mW mSeven rfl rfl rfl

end Tsorb
